import Mathlib

/-!
Verification of the constraint-and-drag engine of
`src/src/components/Rectangle_Resizing.tsx` (OvalConstantAreaRects).

The interactive state (rectangle list, oval, drag ref) and the event
handlers (`onMouseDown*`, `onMouseMove`, `onMouseUp`) are embedded as pure
functions over `ℚ` (the idealized exact-number semantics of the
JavaScript `number` arithmetic used by the handlers); the two batch
buttons use `Math.sqrt` and are embedded over `ℝ` separately.
-/

namespace RectResizing

/-- Canvas width: `const [W, H] = [960, 560]` in the source. -/
def W : ℚ := 960

/-- Canvas height. -/
def H : ℚ := 560

/-- The `Rect` type of the source (center, dimensions, constant area target). -/
structure Rect where
  id : String
  cx : ℚ
  cy : ℚ
  w : ℚ
  h : ℚ
  area : ℚ
  color : String
deriving DecidableEq, Repr

/-- The oval state: `useState({ cx: W/2, cy: H/2, rx: 320, ry: 200 })`. -/
structure Oval where
  cx : ℚ
  cy : ℚ
  rx : ℚ
  ry : ℚ
deriving DecidableEq, Repr

/-- `const clamp = (v, min, max) => Math.max(min, Math.min(max, v))`. -/
def clamp {α : Type} [LinearOrder α] (v lo hi : α) : α :=
  max lo (min hi v)

/-- `insideEllipse (x, y, cx, cy, rx, ry)`: true iff the point normalized by
the radii lies within the unit circle. -/
def insideEllipse (x y cx cy rx ry : ℚ) : Bool :=
  let dx := (x - cx) / rx
  let dy := (y - cy) / ry
  decide (dx * dx + dy * dy ≤ 1)

/-- The drag ref (`dragRef.current`): one constructor per `type` field value,
holding `startX`/`startY` (pointer position at mouse-down) and the `orig`
snapshot exactly as each mouse-down handler stores it.  For the rectangle
interactions `orig` is `Option`al because `rects.find` can miss; for the oval
interactions the oval always exists.  The `dir` component is the `direction`
sign stored alongside the snapshot by the resize handlers. -/
inductive Drag where
  | moveRect (id : String) (startX startY : ℚ) (orig : Option Rect)
  | resizeRectW (id : String) (startX startY : ℚ) (orig : Option (Rect × ℚ))
  | resizeRectH (id : String) (startX startY : ℚ) (orig : Option (Rect × ℚ))
  | resizeOvalRX (startX startY : ℚ) (orig : Oval × ℚ)
  | resizeOvalRY (startX startY : ℚ) (orig : Oval × ℚ)
deriving DecidableEq, Repr

/-- The full component state: the oval, the rectangle list and the drag ref. -/
structure State where
  oval : Oval
  rects : List Rect
  drag : Option Drag
deriving DecidableEq, Repr

/-- The target id a drag session refers to (`d.id`), when it has one. -/
def dragTargetId : Drag → Option String
  | .moveRect i _ _ _ => some i
  | .resizeRectW i _ _ _ => some i
  | .resizeRectH i _ _ _ => some i
  | .resizeOvalRX _ _ _ => none
  | .resizeOvalRY _ _ _ => none

/-- `onMouseDownRectMove`: store the move session with
`orig: rects.find(r => r.id === id)`. -/
def onMouseDownRectMove (id : String) (clientX clientY : ℚ) (s : State) : State :=
  { s with drag := some (Drag.moveRect id clientX clientY
      (s.rects.find? (fun r => r.id == id))) }

/-- `onMouseDownRectW`: store the width-resize session with
`orig: { ...rects.find(r => r.id === id)!, dir: direction }`. -/
def onMouseDownRectW (id : String) (direction : ℚ) (clientX clientY : ℚ) (s : State) : State :=
  { s with drag := some (Drag.resizeRectW id clientX clientY
      ((s.rects.find? (fun r => r.id == id)).map (fun r => (r, direction)))) }

/-- `onMouseDownRectH`: store the height-resize session. -/
def onMouseDownRectH (id : String) (direction : ℚ) (clientX clientY : ℚ) (s : State) : State :=
  { s with drag := some (Drag.resizeRectH id clientX clientY
      ((s.rects.find? (fun r => r.id == id)).map (fun r => (r, direction)))) }

/-- `onMouseDownOvalRX`: store the rx-resize session with
`orig: { ...oval, dir: direction }`. -/
def onMouseDownOvalRX (direction : ℚ) (clientX clientY : ℚ) (s : State) : State :=
  { s with drag := some (Drag.resizeOvalRX clientX clientY (s.oval, direction)) }

/-- `onMouseDownOvalRY`: store the ry-resize session. -/
def onMouseDownOvalRY (direction : ℚ) (clientX clientY : ℚ) (s : State) : State :=
  { s with drag := some (Drag.resizeOvalRY clientX clientY (s.oval, direction)) }

/-- `onMouseMove`: the pointer-move handler.  `dx`/`dy` are the deltas from
the session origin.  Branch by `d.type`; each branch mirrors the source:
  * `moveRect`: `nx = r.cx + dx; ny = r.cy + dy` — note the source reads the
    LIVE rectangle `r` from the updater's `prev`, not `d.orig` — then clamps
    the center to the canvas `[0, W] × [0, H]`.
  * `resizeRectW`: `w = max(20, w0 + dir*dx); h = clamp(area/w, 10, 600)`,
    both read from the `orig` snapshot; writes `w`,`h` of the target rect.
  * `resizeRectH`: `h = max(10, h0 + dir*dy); w = clamp(area/h, 20, 900)`.
  * `resizeOvalRX`: `rx = clamp(rx0 + dir*dx, 60, W/2 - 40)`.
  * `resizeOvalRY`: `ry = clamp(ry0 + dir*dy, 60, H/2 - 40)`. -/
def onMouseMove (clientX clientY : ℚ) (s : State) : State :=
  match s.drag with
  | none => s
  | some d =>
    match d with
    | Drag.moveRect i startX startY orig =>
      match orig with
      | none => s
      | some _ =>
        let dx := clientX - startX
        let dy := clientY - startY
        { s with rects := s.rects.map (fun r =>
            if r.id ≠ i then r
            else
              let nx := r.cx + dx
              let ny := r.cy + dy
              { r with cx := clamp nx 0 W, cy := clamp ny 0 H }) }
    | Drag.resizeRectW i startX _ orig =>
      match orig with
      | none => s
      | some (o, dir) =>
        let dx := clientX - startX
        let w := max 20 (o.w + dir * dx)
        let h := clamp (o.area / w) 10 600
        { s with rects := s.rects.map (fun r =>
            if r.id = i then { r with w := w, h := h } else r) }
    | Drag.resizeRectH i _ startY orig =>
      match orig with
      | none => s
      | some (o, dir) =>
        let dy := clientY - startY
        let h := max 10 (o.h + dir * dy)
        let w := clamp (o.area / h) 20 900
        { s with rects := s.rects.map (fun r =>
            if r.id = i then { r with w := w, h := h } else r) }
    | Drag.resizeOvalRX startX _ orig =>
      let dx := clientX - startX
      let rx := clamp (orig.1.rx + orig.2 * dx) 60 (W / 2 - 40)
      { s with oval := { s.oval with rx := rx } }
    | Drag.resizeOvalRY _ startY orig =>
      let dy := clientY - startY
      let ry := clamp (orig.1.ry + orig.2 * dy) 60 (H / 2 - 40)
      { s with oval := { s.oval with ry := ry } }

/-- `onMouseUp` (also bound to `onMouseLeave`): drop the drag ref and run the
containment reconciliation over every rectangle — if the center is inside the
oval, keep the rectangle; otherwise clamp each center axis into
`[ovalCenter - radius + halfExtent, ovalCenter + radius - halfExtent]`. -/
def onMouseUp (s : State) : State :=
  { s with
    drag := none,
    rects := s.rects.map (fun r =>
      if insideEllipse r.cx r.cy s.oval.cx s.oval.cy s.oval.rx s.oval.ry then r
      else
        { r with
          cx := clamp r.cx (s.oval.cx - s.oval.rx + r.w / 2) (s.oval.cx + s.oval.rx - r.w / 2),
          cy := clamp r.cy (s.oval.cy - s.oval.ry + r.h / 2) (s.oval.cy + s.oval.ry - r.h / 2) }) }

/-- Abstract pointer / button events the handlers respond to. -/
inductive Event where
  | downRectMove (id : String) (x y : ℚ)
  | downRectW (id : String) (direction : ℚ) (x y : ℚ)
  | downRectH (id : String) (direction : ℚ) (x y : ℚ)
  | downOvalRX (direction : ℚ) (x y : ℚ)
  | downOvalRY (direction : ℚ) (x y : ℚ)
  | move (x y : ℚ)
  | up
deriving DecidableEq, Repr

/-- Dispatch one event to its handler. -/
def step (e : Event) (s : State) : State :=
  match e with
  | .downRectMove i x y => onMouseDownRectMove i x y s
  | .downRectW i dir x y => onMouseDownRectW i dir x y s
  | .downRectH i dir x y => onMouseDownRectH i dir x y s
  | .downOvalRX dir x y => onMouseDownOvalRX dir x y s
  | .downOvalRY dir x y => onMouseDownOvalRY dir x y s
  | .move x y => onMouseMove x y s
  | .up => onMouseUp s

/-- Run a list of events in order. -/
def run (es : List Event) (s : State) : State :=
  es.foldl (fun t e => step e t) s

/-- The initial oval: `{ cx: W/2, cy: H/2, rx: 320, ry: 200 }`. -/
def oval0 : Oval := { cx := W / 2, cy := H / 2, rx := 320, ry := 200 }

/-- The four initial 120×60 rectangles placed around the oval center. -/
def initialRects : List Rect :=
  [ { id := "R1", cx := oval0.cx - oval0.rx / 2.2, cy := oval0.cy - oval0.ry / 3,
      w := 120, h := 60, area := 120 * 60, color := "#2563eb" },
    { id := "R2", cx := oval0.cx + oval0.rx / 2.2, cy := oval0.cy - oval0.ry / 3,
      w := 120, h := 60, area := 120 * 60, color := "#16a34a" },
    { id := "R3", cx := oval0.cx - oval0.rx / 2.2, cy := oval0.cy + oval0.ry / 3,
      w := 120, h := 60, area := 120 * 60, color := "#f59e0b" },
    { id := "R4", cx := oval0.cx + oval0.rx / 2.2, cy := oval0.cy + oval0.ry / 3,
      w := 120, h := 60, area := 120 * 60, color := "#ef4444" } ]

/-- The initial component state. -/
def initState : State := { oval := oval0, rects := initialRects, drag := none }

/-! ### Basic clamp lemmas -/

theorem le_clamp {α : Type} [LinearOrder α] (v lo hi : α) : lo ≤ clamp v lo hi :=
  le_max_left lo (min hi v)

theorem clamp_le_hi {α : Type} [LinearOrder α] (v : α) {lo hi : α} (h : lo ≤ hi) :
    clamp v lo hi ≤ hi :=
  max_le h (min_le_left hi v)

theorem clamp_eq_self {α : Type} [LinearOrder α] {v lo hi : α} (h1 : lo ≤ v) (h2 : v ≤ hi) :
    clamp v lo hi = v := by
  unfold clamp
  rw [min_eq_right h2, max_eq_right h1]

theorem map_self_of_mem {α : Type} {f : α → α} :
    ∀ {l : List α}, (∀ a ∈ l, f a = a) → l.map f = l := by
  intro l h
  induction l with
  | nil => rfl
  | cons a t ih => simp_all

/-- The oval-radius bounds used by the radius-resize clamps. -/
def ovalInv (o : Oval) : Prop :=
  60 ≤ o.rx ∧ o.rx ≤ W / 2 - 40 ∧ 60 ≤ o.ry ∧ o.ry ≤ H / 2 - 40

/-! ### Concrete states used in counterexamples and witnesses -/

/-- A 120×60 rectangle at (50, 50), id `R1`. -/
def rMove : Rect :=
  { id := "R1", cx := 50, cy := 50, w := 120, h := 60, area := 7200, color := "" }

/-- State holding `rMove` with a move session whose origin is (100, 100) and
whose snapshot is the rectangle as captured at mouse-down. -/
def sMove : State :=
  { oval := oval0, rects := [rMove], drag := some (Drag.moveRect "R1" 100 100 (some rMove)) }

/-- A 120×60 rectangle at the oval center, id `R1`. -/
def r5 : Rect :=
  { id := "R1", cx := 480, cy := 280, w := 120, h := 60, area := 7200, color := "" }

/-- State holding `r5` with a width-resize session, origin (100, 100),
snapshot width 120, direction +1. -/
def s5 : State :=
  { oval := oval0, rects := [r5], drag := some (Drag.resizeRectW "R1" 100 100 (some (r5, 1))) }

/-- The first of the four initial rectangles. -/
def r1 : Rect :=
  { id := "R1", cx := oval0.cx - oval0.rx / 2.2, cy := oval0.cy - oval0.ry / 3,
    w := 120, h := 60, area := 120 * 60, color := "#2563eb" }

/-- Initial state after a mouse-down on R1's right width handle at (100, 100). -/
def s1w : State := step (Event.downRectW "R1" 1 100 100) initState

/-- Initial state after a mouse-down on R1's left width handle at (100, 100). -/
def s4w : State := step (Event.downRectW "R1" (-1) 100 100) initState

/-! ### Claim theorems over the ℚ model -/

/-- C1: a `ResizeRectangleWidth` (resp. `ResizeRectangleHeight`) pointer move
in which neither the dimension floor nor the derived-dimension clamp fires
writes `w := snapshot.w + dir·dx` and `h := area / w` (resp. the symmetric
pair), so the resulting rectangle satisfies `w * h = area` exactly over ℚ. -/
theorem resize_no_clamp_preserves_area
    (s : State) (x y : ℚ) (i : String) (sx sy dir : ℚ) (o r : Rect)
    (hr : r ∈ s.rects) (hid : r.id = i) (hA : r.area = o.area) :
    (s.drag = some (Drag.resizeRectW i sx sy (some (o, dir))) →
      20 ≤ o.w + dir * (x - sx) →
      10 ≤ o.area / (o.w + dir * (x - sx)) →
      o.area / (o.w + dir * (x - sx)) ≤ 600 →
      ({ r with w := o.w + dir * (x - sx), h := o.area / (o.w + dir * (x - sx)) } : Rect)
          ∈ (onMouseMove x y s).rects
        ∧ (o.w + dir * (x - sx)) * (o.area / (o.w + dir * (x - sx))) = r.area)
    ∧ (s.drag = some (Drag.resizeRectH i sx sy (some (o, dir))) →
      10 ≤ o.h + dir * (y - sy) →
      20 ≤ o.area / (o.h + dir * (y - sy)) →
      o.area / (o.h + dir * (y - sy)) ≤ 900 →
      ({ r with h := o.h + dir * (y - sy), w := o.area / (o.h + dir * (y - sy)) } : Rect)
          ∈ (onMouseMove x y s).rects
        ∧ (o.area / (o.h + dir * (y - sy))) * (o.h + dir * (y - sy)) = r.area) := by
  constructor
  · intro hd h20 h10 h600
    have hw : max (20 : ℚ) (o.w + dir * (x - sx)) = o.w + dir * (x - sx) := max_eq_right h20
    have hne : (o.w + dir * (x - sx)) ≠ 0 :=
      ne_of_gt (lt_of_lt_of_le (by norm_num) h20)
    constructor
    · simp only [onMouseMove, hd]
      refine List.mem_map.mpr ⟨r, hr, ?_⟩
      rw [if_pos hid, hw, clamp_eq_self h10 h600]
    · rw [hA, mul_comm]
      exact div_mul_cancel₀ _ hne
  · intro hd h10 h20 h900
    have hh : max (10 : ℚ) (o.h + dir * (y - sy)) = o.h + dir * (y - sy) := max_eq_right h10
    have hne : (o.h + dir * (y - sy)) ≠ 0 :=
      ne_of_gt (lt_of_lt_of_le (by norm_num) h10)
    constructor
    · simp only [onMouseMove, hd]
      refine List.mem_map.mpr ⟨r, hr, ?_⟩
      rw [if_pos hid, hh, clamp_eq_self h20 h900]
    · rw [hA]
      exact div_mul_cancel₀ _ hne

/-- C1 witness: mouse-down on R1's width handle from the initial state and a
move to (150, 100): width 170, height 7200/170, product exactly 7200. -/
theorem resize_no_clamp_preserves_area_witness :
    (r1 ∈ s1w.rects ∧ s1w.drag = some (Drag.resizeRectW "R1" 100 100 (some (r1, 1))))
    ∧ (({ r1 with
          w := r1.w + 1 * ((150 : ℚ) - 100),
          h := r1.area / (r1.w + 1 * ((150 : ℚ) - 100)) } : Rect)
        ∈ (onMouseMove 150 100 s1w).rects
      ∧ (r1.w + 1 * ((150 : ℚ) - 100)) * (r1.area / (r1.w + 1 * ((150 : ℚ) - 100))) = r1.area) :=
  ⟨⟨by simp [s1w, step, onMouseDownRectW, initState, initialRects, r1],
    by norm_num [s1w, step, onMouseDownRectW, initState, initialRects, r1, List.find?]⟩,
   (resize_no_clamp_preserves_area s1w 150 100 "R1" 100 100 1 r1 r1
      (by simp [s1w, step, onMouseDownRectW, initState, initialRects, r1]) rfl rfl).1
    (by norm_num [s1w, step, onMouseDownRectW, initState, initialRects, r1, List.find?])
    (by norm_num [r1]) (by norm_num [r1]) (by norm_num [r1])⟩

/-- C2 (refuting evaluation): in a move session with origin (100, 100) and
snapshot center x = 50, two pointer moves to the SAME position (110, 100)
leave the rectangle at cx = 70, because `onMouseMove` adds the delta to the
live center `r.cx`; the snapshot-based rule `clamp(snapshot.cx + dx, 0, W)`
predicts 60 ≠ 70. -/
theorem move_applies_delta_to_live_center :
    (onMouseMove 110 100 (onMouseMove 110 100 sMove)).rects.map Rect.cx = [70]
    ∧ clamp (rMove.cx + ((110 : ℚ) - 100)) 0 W = 60
    ∧ ((70 : ℚ) ≠ 60) := by
  refine ⟨?_, ?_, by norm_num⟩
  · norm_num [onMouseMove, sMove, rMove, clamp, W, H, min_def, max_def]
  · norm_num [rMove, clamp, W, min_def, max_def]

/-- C3 (refuting evaluation): processing the pointer-move to (110, 100) twice
in the `sMove` session yields center x = 70, while processing it once yields
60 — MoveRectangle is not idempotent in the code. -/
theorem move_double_event_not_idempotent :
    (onMouseMove 110 100 (onMouseMove 110 100 sMove)).rects.map Rect.cx = [70]
    ∧ (onMouseMove 110 100 sMove).rects.map Rect.cx = [60]
    ∧ ¬ (([70] : List ℚ) = [60]) := by
  refine ⟨?_, ?_, by norm_num⟩
  · norm_num [onMouseMove, sMove, rMove, clamp, W, H, min_def, max_def]
  · norm_num [onMouseMove, sMove, rMove, clamp, W, H, min_def, max_def]

/-- C4: a `ResizeRectangleWidth` move whose candidate width
`snapshot.w + dir·dx` falls below 20 writes width exactly 20 and height
`clamp(area / 20, 10, 600)` to the target rectangle. -/
theorem resize_width_floor_clamp
    (s : State) (x y : ℚ) (i : String) (sx sy dir : ℚ) (o r : Rect)
    (hd : s.drag = some (Drag.resizeRectW i sx sy (some (o, dir))))
    (hr : r ∈ s.rects) (hid : r.id = i)
    (hlt : o.w + dir * (x - sx) < 20) :
    ({ r with w := 20, h := clamp (o.area / 20) 10 600 } : Rect) ∈ (onMouseMove x y s).rects := by
  have hw : max (20 : ℚ) (o.w + dir * (x - sx)) = 20 := max_eq_left (le_of_lt hlt)
  simp only [onMouseMove, hd]
  refine List.mem_map.mpr ⟨r, hr, ?_⟩
  rw [if_pos hid, hw]

/-- C4 witness: mouse-down on R1's left width handle (direction −1) from the
initial state and a move with dx = 150: candidate width −30 < 20, so the
written pair is (20, clamp(7200/20, 10, 600)) = (20, 360). -/
theorem resize_width_floor_clamp_witness :
    (r1 ∈ s4w.rects
      ∧ s4w.drag = some (Drag.resizeRectW "R1" 100 100 (some (r1, -1)))
      ∧ r1.w + (-1) * ((250 : ℚ) - 100) < 20
      ∧ clamp ((r1.area : ℚ) / 20) 10 600 = 360)
    ∧ ({ r1 with w := 20, h := clamp ((r1.area : ℚ) / 20) 10 600 } : Rect)
        ∈ (onMouseMove 250 100 s4w).rects :=
  ⟨⟨by simp [s4w, step, onMouseDownRectW, initState, initialRects, r1],
    by norm_num [s4w, step, onMouseDownRectW, initState, initialRects, r1, List.find?],
    by norm_num [r1],
    by norm_num [r1, clamp, min_def, max_def]⟩,
   resize_width_floor_clamp s4w 250 100 "R1" 100 100 (-1) r1 r1
    (by norm_num [s4w, step, onMouseDownRectW, initState, initialRects, r1, List.find?])
    (by simp [s4w, step, onMouseDownRectW, initState, initialRects, r1])
    rfl (by norm_num [r1])⟩

/-- C5: within one `ResizeRectangleWidth` session, every pointer move reads
the session's original snapshot and origin, never the previous frame: a
second move after a first one produces exactly the state the second move
alone would have produced; concretely, with origin (100, 100), snapshot
width 120 and direction +1, moving to (150, 100) gives width 170 and then
moving to (130, 100) gives width 150 (not 140 + 20). -/
theorem resize_width_snapshot_stability
    (s : State) (x1 y1 x2 y2 : ℚ) (i : String) (sx sy dir : ℚ) (o : Rect)
    (hd : s.drag = some (Drag.resizeRectW i sx sy (some (o, dir)))) :
    onMouseMove x2 y2 (onMouseMove x1 y1 s) = onMouseMove x2 y2 s
    ∧ (onMouseMove 150 100 s5).rects.map Rect.w = [170]
    ∧ (onMouseMove 130 100 (onMouseMove 150 100 s5)).rects.map Rect.w = [150] := by
  refine ⟨?_, ?_, ?_⟩
  · simp only [onMouseMove, hd]
    rw [List.map_map]
    congr 1
    refine List.map_congr_left ?_
    intro r _
    by_cases hc : r.id = i <;> simp [Function.comp, hc]
  · norm_num [onMouseMove, s5, r5, clamp, W, H, min_def, max_def]
  · norm_num [onMouseMove, s5, r5, clamp, W, H, min_def, max_def]

/-- C5 witness: the session `s5` (origin (100, 100), snapshot width 120,
direction +1), second move applied after the first equals the second move
alone, and the concrete widths are 170 then 150. -/
theorem resize_width_snapshot_stability_witness :
    (s5.drag = some (Drag.resizeRectW "R1" 100 100 (some (r5, 1))))
    ∧ (onMouseMove 130 100 (onMouseMove 150 100 s5) = onMouseMove 130 100 s5
      ∧ (onMouseMove 150 100 s5).rects.map Rect.w = [170]
      ∧ (onMouseMove 130 100 (onMouseMove 150 100 s5)).rects.map Rect.w = [150]) :=
  ⟨rfl, resize_width_snapshot_stability s5 150 100 130 100 "R1" 100 100 1 r5 rfl⟩

/-- C6: on session end, a rectangle whose center passes `insideEllipse` is
kept unchanged (reconciliation is a no-op on it); one whose center fails the
test is re-centered by clamping cx into
`[ovalCx − rx + w/2, ovalCx + rx − w/2]` and cy into
`[ovalCy − ry + h/2, ovalCy + ry − h/2]`, with width and height untouched. -/
theorem reconcile_inside_noop_outside_clamp (s : State) (r : Rect) (hr : r ∈ s.rects) :
    (insideEllipse r.cx r.cy s.oval.cx s.oval.cy s.oval.rx s.oval.ry = true →
      r ∈ (onMouseUp s).rects)
    ∧ (insideEllipse r.cx r.cy s.oval.cx s.oval.cy s.oval.rx s.oval.ry = false →
      ({ r with
          cx := clamp r.cx (s.oval.cx - s.oval.rx + r.w / 2) (s.oval.cx + s.oval.rx - r.w / 2),
          cy := clamp r.cy (s.oval.cy - s.oval.ry + r.h / 2) (s.oval.cy + s.oval.ry - r.h / 2) } : Rect)
        ∈ (onMouseUp s).rects) := by
  constructor
  · intro hIn
    simp only [onMouseUp]
    exact List.mem_map.mpr ⟨r, hr, by simp [hIn]⟩
  · intro hOut
    simp only [onMouseUp]
    exact List.mem_map.mpr ⟨r, hr, by simp [hOut]⟩

/-- A rectangle inside the initial oval (at its center). -/
def rIn : Rect :=
  { id := "R8", cx := 480, cy := 280, w := 120, h := 60, area := 7200, color := "" }

/-- A rectangle far right of the initial oval. -/
def rOut : Rect :=
  { id := "R9", cx := 900, cy := 280, w := 120, h := 60, area := 7200, color := "" }

/-- Idle state holding `rIn` and `rOut` with the initial oval. -/
def s6 : State := { oval := oval0, rects := [rIn, rOut], drag := none }

/-- C6 witness: after `onMouseUp` on `s6`, the inside rectangle `rIn` is kept
as-is and the outside rectangle `rOut` is pulled to the per-axis clamped
center (its cx lands at 480 + 320 − 60 = 740), dimensions untouched. -/
theorem reconcile_inside_noop_outside_clamp_witness :
    (rIn ∈ s6.rects
      ∧ insideEllipse rIn.cx rIn.cy s6.oval.cx s6.oval.cy s6.oval.rx s6.oval.ry = true
      ∧ rOut ∈ s6.rects
      ∧ insideEllipse rOut.cx rOut.cy s6.oval.cx s6.oval.cy s6.oval.rx s6.oval.ry = false
      ∧ clamp rOut.cx (s6.oval.cx - s6.oval.rx + rOut.w / 2) (s6.oval.cx + s6.oval.rx - rOut.w / 2)
          = 740)
    ∧ rIn ∈ (onMouseUp s6).rects
    ∧ ({ rOut with
        cx := clamp rOut.cx (s6.oval.cx - s6.oval.rx + rOut.w / 2)
                (s6.oval.cx + s6.oval.rx - rOut.w / 2),
        cy := clamp rOut.cy (s6.oval.cy - s6.oval.ry + rOut.h / 2)
                (s6.oval.cy + s6.oval.ry - rOut.h / 2) } : Rect)
        ∈ (onMouseUp s6).rects :=
  ⟨⟨by simp [s6],
    by norm_num [insideEllipse, rIn, s6, oval0, W, H],
    by simp [s6],
    by norm_num [insideEllipse, rOut, s6, oval0, W, H],
    by norm_num [rOut, s6, oval0, W, H, clamp, min_def, max_def]⟩,
   (reconcile_inside_noop_outside_clamp s6 rIn (by simp [s6])).1
    (by norm_num [insideEllipse, rIn, s6, oval0, W, H]),
   (reconcile_inside_noop_outside_clamp s6 rOut (by simp [s6])).2
    (by norm_num [insideEllipse, rOut, s6, oval0, W, H])⟩

theorem step_preserves_ovalInv (e : Event) (s : State) (h : ovalInv s.oval) :
    ovalInv ((step e s).oval) := by
  cases e with
  | downRectMove i x y => exact h
  | downRectW i dir x y => exact h
  | downRectH i dir x y => exact h
  | downOvalRX dir x y => exact h
  | downOvalRY dir x y => exact h
  | up => exact h
  | move x y =>
    show ovalInv ((onMouseMove x y s).oval)
    rcases hd : s.drag with _ | d
    · simpa [onMouseMove, hd] using h
    · cases d with
      | moveRect i sx sy orig =>
        cases orig <;> simpa [onMouseMove, hd] using h
      | resizeRectW i sx sy orig =>
        rcases orig with _ | ⟨o, dir⟩ <;> simpa [onMouseMove, hd] using h
      | resizeRectH i sx sy orig =>
        rcases orig with _ | ⟨o, dir⟩ <;> simpa [onMouseMove, hd] using h
      | resizeOvalRX sx sy orig =>
        simp only [onMouseMove, hd]
        exact ⟨le_clamp _ _ _, clamp_le_hi _ (by norm_num [W]), h.2.2.1, h.2.2.2⟩
      | resizeOvalRY sx sy orig =>
        simp only [onMouseMove, hd]
        exact ⟨h.1, h.2.1, le_clamp _ _ _, clamp_le_hi _ (by norm_num [H])⟩

theorem run_preserves_ovalInv (es : List Event) (s : State) (h : ovalInv s.oval) :
    ovalInv ((run es s).oval) := by
  induction es generalizing s with
  | nil => exact h
  | cons e t ih => exact ih (step e s) (step_preserves_ovalInv e s h)

/-- C8: a `ResizeEllipseRadiusX` move writes
`rx = clamp(snapshot.rx + dir·dx, 60, W/2 − 40)` and leaves ry alone (and
symmetrically for `ResizeEllipseRadiusY`); every handler keeps both radii in
`[60, W/2 − 40] × [60, H/2 − 40]`, so the bounds hold in every state
reachable by events from a state satisfying them, and they hold initially. -/
theorem oval_radii_invariant (s : State) (es : List Event) (h : ovalInv s.oval) :
    ovalInv ((run es s).oval)
    ∧ (∀ sx sy o0 dir x y, s.drag = some (Drag.resizeOvalRX sx sy (o0, dir)) →
        (onMouseMove x y s).oval.rx = clamp (o0.rx + dir * (x - sx)) 60 (W / 2 - 40)
        ∧ (onMouseMove x y s).oval.ry = s.oval.ry)
    ∧ (∀ sx sy o0 dir x y, s.drag = some (Drag.resizeOvalRY sx sy (o0, dir)) →
        (onMouseMove x y s).oval.ry = clamp (o0.ry + dir * (y - sy)) 60 (H / 2 - 40)
        ∧ (onMouseMove x y s).oval.rx = s.oval.rx)
    ∧ ovalInv initState.oval := by
  refine ⟨run_preserves_ovalInv es s h, ?_, ?_, ?_⟩
  · intro sx sy o0 dir x y hd
    simp [onMouseMove, hd]
  · intro sx sy o0 dir x y hd
    simp [onMouseMove, hd]
  · norm_num [ovalInv, initState, oval0, W, H]

/-- C8 witness: from the initial state, grab the right rx handle at
(100, 100) and drag far right then release: the radii stay in bounds. -/
theorem oval_radii_invariant_witness :
    ovalInv initState.oval
    ∧ ovalInv ((run [Event.downOvalRX 1 100 100, Event.move 900 100, Event.up] initState).oval) :=
  ⟨by norm_num [ovalInv, initState, oval0, W, H],
   (oval_radii_invariant initState [Event.downOvalRX 1 100 100, Event.move 900 100, Event.up]
      (by norm_num [ovalInv, initState, oval0, W, H])).1⟩

/-- C10: a pointer-move whose session targets an id that matches no
rectangle in the collection leaves the whole state (rectangles, oval and
drag ref) unchanged. -/
theorem unknown_target_noop (s : State) (x y : ℚ) (d : Drag) (i : String)
    (hd : s.drag = some d) (ht : dragTargetId d = some i)
    (hnone : ∀ r ∈ s.rects, r.id ≠ i) :
    onMouseMove x y s = s := by
  cases d with
  | moveRect j sx sy orig =>
    simp only [dragTargetId, Option.some.injEq] at ht
    subst ht
    rcases orig with _ | o
    · simp [onMouseMove, hd]
    · simp only [onMouseMove, hd]
      rw [map_self_of_mem (fun r hr => if_pos (hnone r hr)), ← hd]
  | resizeRectW j sx sy orig =>
    simp only [dragTargetId, Option.some.injEq] at ht
    subst ht
    rcases orig with _ | ⟨o, dir⟩
    · simp [onMouseMove, hd]
    · simp only [onMouseMove, hd]
      rw [map_self_of_mem (fun r hr => if_neg (hnone r hr)), ← hd]
  | resizeRectH j sx sy orig =>
    simp only [dragTargetId, Option.some.injEq] at ht
    subst ht
    rcases orig with _ | ⟨o, dir⟩
    · simp [onMouseMove, hd]
    · simp only [onMouseMove, hd]
      rw [map_self_of_mem (fun r hr => if_neg (hnone r hr)), ← hd]
  | resizeOvalRX sx sy orig => simp [dragTargetId] at ht
  | resizeOvalRY sx sy orig => simp [dragTargetId] at ht

/-- Idle one-rectangle state, then a mouse-down on the unknown id `R2`
(so the stored snapshot is `none`, as `rects.find` misses). -/
def s10a : State :=
  step (Event.downRectMove "R2" 100 100) { oval := oval0, rects := [r5], drag := none }

/-- A width-resize session whose stored id `R9` matches no rectangle. -/
def s10b : State :=
  { oval := oval0, rects := [r5], drag := some (Drag.resizeRectW "R9" 100 100 (some (r5, 1))) }

/-- C10 witness: a move event is a no-op both for a move session whose
unknown id produced an empty snapshot and for a resize session whose stored
id matches no rectangle. -/
theorem unknown_target_noop_witness :
    (s10a.drag = some (Drag.moveRect "R2" 100 100 none)
      ∧ (∀ r ∈ s10a.rects, r.id ≠ "R2")
      ∧ onMouseMove 130 120 s10a = s10a)
    ∧ (s10b.drag = some (Drag.resizeRectW "R9" 100 100 (some (r5, 1)))
      ∧ (∀ r ∈ s10b.rects, r.id ≠ "R9")
      ∧ onMouseMove 130 120 s10b = s10b) :=
  ⟨⟨by simp [s10a, step, onMouseDownRectMove, r5, List.find?],
    by simp [s10a, step, onMouseDownRectMove, r5],
    unknown_target_noop s10a 130 120 (Drag.moveRect "R2" 100 100 none) "R2"
      (by simp [s10a, step, onMouseDownRectMove, r5, List.find?]) rfl
      (by simp [s10a, step, onMouseDownRectMove, r5])⟩,
   ⟨rfl,
    by simp [s10b, r5],
    unknown_target_noop s10b 130 120 (Drag.resizeRectW "R9" 100 100 (some (r5, 1))) "R9"
      rfl rfl (by simp [s10b, r5])⟩⟩


/-! ### The batch operations, over ℝ (they use `Math.sqrt`) -/

/-- The `Rect` type with real-valued geometry, for the two batch buttons. -/
structure RectR where
  id : String
  cx : ℝ
  cy : ℝ
  w : ℝ
  h : ℝ
  area : ℝ
  color : String

/-- The oval with real-valued geometry. -/
structure OvalR where
  cx : ℝ
  cy : ℝ
  rx : ℝ
  ry : ℝ

/-- Oval plus rectangle list, the state the batch buttons rewrite. -/
structure StateR where
  oval : OvalR
  rects : List RectR

/-- One rectangle of the "Normalize sizes" button:
`w = Math.sqrt(r.area * (r.w / r.h)); h = r.area / w`. -/
noncomputable def normalizeRect (r : RectR) : RectR :=
  let w := Real.sqrt (r.area * (r.w / r.h))
  let h := r.area / w
  { r with w := w, h := h }

/-- One rectangle of the "Randomize aspect" button, with `rand` the value
drawn by `Math.random()`:
`aspect = clamp(rand * 3 + 0.5, 0.5, 3.5); h = Math.sqrt(r.area / aspect);
w = r.area / h`. -/
noncomputable def randomizeRect (rand : ℝ) (r : RectR) : RectR :=
  let aspect := clamp (rand * 3 + 0.5) 0.5 3.5
  let h := Real.sqrt (r.area / aspect)
  let w := r.area / h
  { r with w := w, h := h }

/-- "Normalize sizes" `onClick`: rewrite every rectangle, touch nothing else. -/
noncomputable def normalizeOp (s : StateR) : StateR :=
  { s with rects := s.rects.map normalizeRect }

/-- Map `randomizeRect` over a list, drawing `f n` for the n-th rectangle
(each rectangle gets an independent `Math.random()` draw). -/
noncomputable def randomizeList (f : ℕ → ℝ) : ℕ → List RectR → List RectR
  | _, [] => []
  | n, r :: rs => randomizeRect (f n) r :: randomizeList f (n + 1) rs

/-- "Randomize aspect" `onClick`: rewrite every rectangle with its own draw,
touch nothing else. -/
noncomputable def randomizeOp (f : ℕ → ℝ) (s : StateR) : StateR :=
  { s with rects := randomizeList f 0 s.rects }

/-- The rectangle {w: 120, h: 60, area: 7200} of the spec scenario. -/
noncomputable def rect120 : RectR :=
  { id := "R1", cx := 480, cy := 200, w := 120, h := 60, area := 7200, color := "#2563eb" }

/-- C7: both batch operations restore `w * h = area` exactly over ℝ for any
rectangle with positive area and dimensions and any drawn aspect, and
normalize leaves {w: 120, h: 60, area: 7200} unchanged, since
`sqrt(7200 * 2) = 120`. -/
theorem batch_area_invariant (r : RectR) (a : ℝ)
    (hA : 0 < r.area) (hw : 0 < r.w) (hh : 0 < r.h) :
    (normalizeRect r).w * (normalizeRect r).h = r.area
    ∧ (randomizeRect a r).w * (randomizeRect a r).h = r.area
    ∧ normalizeRect rect120 = rect120 := by
  refine ⟨?_, ?_, ?_⟩
  · have hpos : 0 < r.area * (r.w / r.h) := mul_pos hA (div_pos hw hh)
    have hs : 0 < Real.sqrt (r.area * (r.w / r.h)) := Real.sqrt_pos.mpr hpos
    show Real.sqrt (r.area * (r.w / r.h)) * (r.area / Real.sqrt (r.area * (r.w / r.h))) = r.area
    rw [mul_comm]
    exact div_mul_cancel₀ _ (ne_of_gt hs)
  · have h05 : (0.5 : ℝ) ≤ clamp (a * 3 + 0.5) 0.5 3.5 := le_clamp _ _ _
    have haP : 0 < clamp (a * 3 + 0.5) (0.5 : ℝ) 3.5 := lt_of_lt_of_le (by norm_num) h05
    have hs : 0 < Real.sqrt (r.area / clamp (a * 3 + 0.5) 0.5 3.5) :=
      Real.sqrt_pos.mpr (div_pos hA haP)
    show r.area / Real.sqrt (r.area / clamp (a * 3 + 0.5) 0.5 3.5)
        * Real.sqrt (r.area / clamp (a * 3 + 0.5) 0.5 3.5) = r.area
    exact div_mul_cancel₀ _ (ne_of_gt hs)
  · have h2 : Real.sqrt ((7200 : ℝ) * (120 / 60)) = 120 := by
      rw [show ((7200 : ℝ) * (120 / 60)) = 120 ^ 2 by norm_num]
      exact Real.sqrt_sq (by norm_num)
    show ({ rect120 with
            w := Real.sqrt (rect120.area * (rect120.w / rect120.h)),
            h := rect120.area / Real.sqrt (rect120.area * (rect120.w / rect120.h)) } : RectR)
        = rect120
    simp only [rect120, h2]
    norm_num

/-- C7 witness: the hypotheses hold at {w: 120, h: 60, area: 7200} with the
draw 1, and both operations yield product exactly 7200 there. -/
theorem batch_area_invariant_witness :
    ((0 : ℝ) < rect120.area ∧ (0 : ℝ) < rect120.w ∧ (0 : ℝ) < rect120.h)
    ∧ ((normalizeRect rect120).w * (normalizeRect rect120).h = rect120.area
      ∧ (randomizeRect 1 rect120).w * (randomizeRect 1 rect120).h = rect120.area
      ∧ normalizeRect rect120 = rect120) :=
  ⟨⟨by norm_num [rect120], by norm_num [rect120], by norm_num [rect120]⟩,
   batch_area_invariant rect120 1
    (by norm_num [rect120]) (by norm_num [rect120]) (by norm_num [rect120])⟩

theorem randomizeList_length (f : ℕ → ℝ) :
    ∀ (n : ℕ) (l : List RectR), (randomizeList f n l).length = l.length := by
  intro n l
  induction l generalizing n with
  | nil => rfl
  | cons r t ih => simp [randomizeList, ih]

theorem randomizeList_get (f : ℕ → ℝ) :
    ∀ (n : ℕ) (l : List RectR) (i : ℕ) (h1 : i < (randomizeList f n l).length)
      (h2 : i < l.length),
      (randomizeList f n l).get ⟨i, h1⟩ = randomizeRect (f (n + i)) (l.get ⟨i, h2⟩) := by
  intro n l
  induction l generalizing n with
  | nil => intro i h1 h2; exact absurd h2 (by simp)
  | cons r t ih =>
    intro i h1 h2
    cases i with
    | zero => simp [randomizeList]
    | succ j =>
      have h1a : j < (randomizeList f (n + 1) t).length := by
        simpa [randomizeList] using h1
      have h2a : j < t.length := by simpa using h2
      have ihj := ih (n + 1) j h1a h2a
      have e1 : (randomizeList f n (r :: t)).get ⟨j + 1, h1⟩
          = (randomizeList f (n + 1) t).get ⟨j, h1a⟩ := rfl
      have e2 : ((r :: t).get ⟨j + 1, h2⟩) = t.get ⟨j, h2a⟩ := rfl
      rw [e1, e2, ihj, show n + 1 + j = n + (j + 1) by omega]

/-- C9: the batch operations only rewrite rectangle widths and heights:
the oval is untouched, the rectangle list keeps its length, and each
rectangle keeps its id, center, area and color (in particular centers stay
put unconditionally — no containment reconciliation runs). -/
theorem batch_frame_effect (s : StateR) (f : ℕ → ℝ) :
    (normalizeOp s).oval = s.oval
    ∧ (randomizeOp f s).oval = s.oval
    ∧ (normalizeOp s).rects.length = s.rects.length
    ∧ (randomizeOp f s).rects.length = s.rects.length
    ∧ (∀ (i : ℕ) (h1 : i < (normalizeOp s).rects.length) (h2 : i < s.rects.length),
        ((normalizeOp s).rects.get ⟨i, h1⟩).id = (s.rects.get ⟨i, h2⟩).id
        ∧ ((normalizeOp s).rects.get ⟨i, h1⟩).cx = (s.rects.get ⟨i, h2⟩).cx
        ∧ ((normalizeOp s).rects.get ⟨i, h1⟩).cy = (s.rects.get ⟨i, h2⟩).cy
        ∧ ((normalizeOp s).rects.get ⟨i, h1⟩).area = (s.rects.get ⟨i, h2⟩).area
        ∧ ((normalizeOp s).rects.get ⟨i, h1⟩).color = (s.rects.get ⟨i, h2⟩).color)
    ∧ (∀ (i : ℕ) (h1 : i < (randomizeOp f s).rects.length) (h2 : i < s.rects.length),
        ((randomizeOp f s).rects.get ⟨i, h1⟩).id = (s.rects.get ⟨i, h2⟩).id
        ∧ ((randomizeOp f s).rects.get ⟨i, h1⟩).cx = (s.rects.get ⟨i, h2⟩).cx
        ∧ ((randomizeOp f s).rects.get ⟨i, h1⟩).cy = (s.rects.get ⟨i, h2⟩).cy
        ∧ ((randomizeOp f s).rects.get ⟨i, h1⟩).area = (s.rects.get ⟨i, h2⟩).area
        ∧ ((randomizeOp f s).rects.get ⟨i, h1⟩).color = (s.rects.get ⟨i, h2⟩).color) := by
  refine ⟨rfl, rfl, by simp [normalizeOp], by simp [randomizeOp, randomizeList_length], ?_, ?_⟩
  · intro i h1 h2
    have hg : ((normalizeOp s).rects.get ⟨i, h1⟩)
        = normalizeRect (s.rects.get ⟨i, h2⟩) := by
      simp [normalizeOp]
    rw [hg]
    exact ⟨rfl, rfl, rfl, rfl, rfl⟩
  · intro i h1 h2
    have hg : ((randomizeOp f s).rects.get ⟨i, h1⟩)
        = randomizeRect (f (0 + i)) (s.rects.get ⟨i, h2⟩) :=
      randomizeList_get f 0 s.rects i h1 h2
    rw [hg]
    exact ⟨rfl, rfl, rfl, rfl, rfl⟩

/-- A one-rectangle real-valued state. -/
noncomputable def sR : StateR :=
  { oval := { cx := 480, cy := 280, rx := 320, ry := 200 }, rects := [rect120] }

/-- C9 witness: the frame conditions instantiated on the concrete state `sR`
with the constant draw 0. -/
theorem batch_frame_effect_witness :
    (normalizeOp sR).oval = sR.oval
    ∧ (randomizeOp (fun _ => 0) sR).oval = sR.oval
    ∧ (normalizeOp sR).rects.length = sR.rects.length :=
  ⟨(batch_frame_effect sR (fun _ => 0)).1,
   (batch_frame_effect sR (fun _ => 0)).2.1,
   (batch_frame_effect sR (fun _ => 0)).2.2.1⟩

end RectResizing
